import Mathlib

/-!
Verification of the core logic of the home energy consumption tracker
(src/one.py): the consumption estimator `calculate_consumption`, the
advisory generator `get_energy_tips`, the flat-file record store
(`initialize_csv`, `save_to_csv`, `load_data`) and the analytics
computed in `main` (weekday averages and cost projection).

Numbers are modelled by exact rationals; the Python builtin
`round(x, 2)` is modelled by `round2`, round-half-to-even on hundredths.
-/

namespace EnergyTracker

/-- Round a rational to the nearest integer, ties to even: the behaviour of
the Python builtin `round` on exact values. -/
def roundHE (q : ℚ) : ℤ :=
  if q - ⌊q⌋ = 1/2 then (if ⌊q⌋ % 2 = 0 then ⌊q⌋ else ⌊q⌋ + 1) else round q

/-- Model of the Python builtin `round(x, 2)`: round to two decimal places, ties to even. -/
def round2 (q : ℚ) : ℚ := (roundHE (q * 100) : ℚ) / 100

/-- The dictionary `home_multipliers` of `calculate_consumption` together
with the `.get(home_type, 1.0)` default lookup (src/one.py line 93). -/
def home_multipliers (t : String) : ℚ :=
  if t = "1BHK" then 1.0
  else if t = "2BHK" then 1.5
  else if t = "3BHK" then 2.0
  else if t = "4BHK+" then 2.5
  else 1.0

/-- The `ac_consumption` term of src/one.py line 102. -/
def ac_consumption (temp : ℚ) : ℚ := 3 + max 0 (temp - 25) * 0.2

/-- The `fridge_consumption` term of src/one.py line 107. -/
def fridge_consumption (temp : ℚ) : ℚ := 2 + max 0 (temp - 20) * 0.1

/-- The value of `base_consumption` after the appliance block of
`calculate_consumption` (src/one.py lines 90-111), before the solar
discount. -/
def baseAfterAppliances (ac_use fridge_use wm_use : Bool) (home_type : String)
    (family_size temp : ℚ) : ℚ :=
  home_multipliers home_type * 2 + family_size * 0.5
    + (if ac_use then ac_consumption temp else 0)
    + (if fridge_use then fridge_consumption temp else 0)
    + (if wm_use then 4 else 0)

/-- The solar discount step of `calculate_consumption`
(src/one.py lines 114-115). -/
def solarAdjust (solar_use : Bool) (b : ℚ) : ℚ :=
  if solar_use then b - min (b * 0.6) 10 else b

/-- The function `calculate_consumption` of src/one.py lines 88-120, argument order as in
the source. -/
def calculate_consumption (ac_use fridge_use wm_use solar_use : Bool)
    (home_type : String) (family_size temp duration : ℚ) : ℚ :=
  max 0 (round2
    (solarAdjust solar_use
        (baseAfterAppliances ac_use fridge_use wm_use home_type family_size temp)
      * (duration / 8)))

/-- The function `get_energy_tips` of src/one.py lines 123-130. -/
def get_energy_tips (consumption : ℚ) : String :=
  if consumption > 15 then
    "🚨 High consumption! Consider using solar panels, LED bulbs, and energy-efficient appliances."
  else if consumption > 10 then
    "⚠ Moderate consumption. Try to use AC wisely and unplug unused devices."
  else
    "✅ Great job! You\x27re maintaining low energy consumption."

/-! ### Evaluation and monotonicity lemmas for the rounding function -/

lemma roundHE_intCast (n : ℤ) : roundHE (n : ℚ) = n := by
  unfold roundHE
  rw [Int.floor_intCast, round_intCast]
  norm_num

lemma round2_int_val (q : ℚ) (n : ℤ) (h : q * 100 = (n : ℚ)) :
    round2 q = (n : ℚ) / 100 := by
  unfold round2
  rw [h, roundHE_intCast]

lemma round_mono_q {x y : ℚ} (h : x ≤ y) : round x ≤ round y := by
  rw [round_eq, round_eq]
  exact Int.floor_le_floor (by linarith)

lemma roundHE_le_round (q : ℚ) : roundHE q ≤ round q := by
  unfold roundHE
  split
  case isTrue htie =>
    have hr : round q = ⌊q⌋ + 1 := by
      have hq : q + 1/2 = ((⌊q⌋ + 1 : ℤ) : ℚ) := by push_cast; linarith
      rw [round_eq, hq, Int.floor_intCast]
    split
    · rw [hr]; omega
    · rw [hr]
  case isFalse _ => exact le_refl _

lemma floor_le_roundHE (q : ℚ) : ⌊q⌋ ≤ roundHE q := by
  unfold roundHE
  split
  · split
    · exact le_refl _
    · omega
  · rw [round_eq]
    exact Int.floor_le_floor (by linarith)

lemma roundHE_eq_round_of_not_even_tie (q : ℚ)
    (h : ¬(q - ⌊q⌋ = 1/2 ∧ ⌊q⌋ % 2 = 0)) : roundHE q = round q := by
  unfold roundHE
  split
  case isTrue htie =>
    rw [if_neg (fun h2 => h ⟨htie, h2⟩)]
    have hq : q + 1/2 = ((⌊q⌋ + 1 : ℤ) : ℚ) := by push_cast; linarith
    rw [round_eq, hq, Int.floor_intCast]
  case isFalse _ => rfl

lemma roundHE_mono {x y : ℚ} (h : x ≤ y) : roundHE x ≤ roundHE y := by
  rcases eq_or_lt_of_le h with rfl | hlt
  · exact le_refl _
  by_cases hc : (y - ⌊y⌋ = 1/2 ∧ ⌊y⌋ % 2 = 0)
  · have hy : roundHE y = ⌊y⌋ := by
      unfold roundHE
      rw [if_pos hc.1, if_pos hc.2]
    have h2 : round x ≤ ⌊y⌋ := by
      rw [round_eq]
      have hlt2 : x + 1/2 < ((⌊y⌋ + 1 : ℤ) : ℚ) := by
        have hy2 : y = (⌊y⌋ : ℚ) + 1/2 := by linarith [hc.1]
        push_cast
        linarith
      have h3 := Int.floor_lt.mpr hlt2
      omega
    rw [hy]
    exact le_trans (roundHE_le_round x) h2
  · rw [roundHE_eq_round_of_not_even_tie y hc]
    exact le_trans (roundHE_le_round x) (round_mono_q h)

lemma round2_mono {x y : ℚ} (h : x ≤ y) : round2 x ≤ round2 y := by
  unfold round2
  have h1 : roundHE (x * 100) ≤ roundHE (y * 100) := roundHE_mono (by linarith)
  have h2 : ((roundHE (x * 100) : ℤ) : ℚ) ≤ ((roundHE (y * 100) : ℤ) : ℚ) := by
    exact_mod_cast h1
  linarith

/-! ### Structural lemmas about the estimator -/

lemma one_le_home_multipliers (t : String) : 1 ≤ home_multipliers t := by
  unfold home_multipliers
  split_ifs <;> norm_num

lemma baseAfterAppliances_pos (ac fr wm : Bool) (ht : String) {f temp : ℚ}
    (hf : 1 ≤ f) : 0 < baseAfterAppliances ac fr wm ht f temp := by
  unfold baseAfterAppliances ac_consumption fridge_consumption
  have h1 := one_le_home_multipliers ht
  have h2 : (0 : ℚ) ≤ max 0 (temp - 25) * 0.2 :=
    mul_nonneg (le_max_left _ _) (by norm_num)
  have h3 : (0 : ℚ) ≤ max 0 (temp - 20) * 0.1 :=
    mul_nonneg (le_max_left _ _) (by norm_num)
  cases ac <;> cases fr <;> cases wm <;> simp <;> linarith

lemma solarAdjust_mono (s : Bool) {b b' : ℚ} (h : b ≤ b') :
    solarAdjust s b ≤ solarAdjust s b' := by
  unfold solarAdjust
  cases s
  · simpa using h
  · simp only [if_pos]
    rw [min_def, min_def]
    split_ifs <;> linarith

lemma solarAdjust_le_self (s : Bool) {b : ℚ} (hb : 0 ≤ b) :
    solarAdjust s b ≤ b := by
  unfold solarAdjust
  cases s
  · simp
  · simp only [if_pos]
    have h0 : (0 : ℚ) ≤ min (b * 0.6) 10 :=
      le_min (by nlinarith) (by norm_num)
    linarith

/-! ### The spec-side statement of the estimation formula (section 4.1 of the
spec), written step by step following the spec text, to be compared with
`calculate_consumption`. -/

/-- The multiplier table of step 1 of the spec formula, with the stated
default of 1.0 for unknown types. -/
def home_multiplier_specTable (t : String) : ℚ :=
  if t = "1BHK" then 1.0
  else if t = "2BHK" then 1.5
  else if t = "3BHK" then 2.0
  else if t = "4BHK+" then 2.5
  else 1.0

/-- The eight-step estimation formula exactly as the spec words it,
argument order as in the spec contract. -/
def estimate_spec (home_type : String)
    (family_size outside_temp_c usage_duration_hours : ℚ)
    (ac_used fridge_used washer_used solar_used : Bool) : ℚ :=
  let base1 := home_multiplier_specTable home_type * 2
  let base2 := base1 + family_size * 0.5
  let base3 := base2 + (if ac_used then 3 + max 0 (outside_temp_c - 25) * 0.2 else 0)
  let base4 := base3 + (if fridge_used then 2 + max 0 (outside_temp_c - 20) * 0.1 else 0)
  let base5 := base4 + (if washer_used then 4 else 0)
  let base6 := if solar_used then base5 - min (base5 * 0.6) 10 else base5
  let base7 := base6 * (usage_duration_hours / 8)
  max 0 (round2 base7)

/-- C1: for every input, the estimator `calculate_consumption` computes
exactly the eight-step formula of the spec: home-type base, family-size
term, temperature-dependent AC and fridge terms, washer term, capped solar
discount before duration scaling, duration scaling by hours/8, and final
`max(0, round(base, 2))`. -/
theorem calculate_consumption_eq_spec_formula (home_type : String)
    (family_size outside_temp_c usage_duration_hours : ℚ)
    (ac_used fridge_used washer_used solar_used : Bool) :
    calculate_consumption ac_used fridge_used washer_used solar_used
        home_type family_size outside_temp_c usage_duration_hours
      = estimate_spec home_type family_size outside_temp_c
          usage_duration_hours ac_used fridge_used washer_used solar_used := by
  unfold calculate_consumption estimate_spec solarAdjust baseAfterAppliances
    ac_consumption fridge_consumption home_multipliers home_multiplier_specTable
  rfl

/-- The list of valid home types (the selectbox options of src/one.py
line 214). -/
def validHomeTypes : List String := ["1BHK", "2BHK", "3BHK", "4BHK+"]

/-- C2: for every valid input (home type in the enum, family size 1-10,
outside temperature 15-45, usage duration 1-24, arbitrary booleans) the
estimator result is nonnegative. -/
theorem calculate_consumption_nonneg (ac fr wm s : Bool) (ht : String)
    (f t d : ℚ) (hht : ht ∈ validHomeTypes)
    (hf1 : 1 ≤ f) (hf2 : f ≤ 10) (ht1 : 15 ≤ t) (ht2 : t ≤ 45)
    (hd1 : 1 ≤ d) (hd2 : d ≤ 24) :
    0 ≤ calculate_consumption ac fr wm s ht f t d := by
  unfold calculate_consumption
  exact le_max_left _ _

/-- C2 witness. -/
theorem calculate_consumption_nonneg_witness :
    0 ≤ calculate_consumption true true true true ("2BHK") 4 30 8 :=
  calculate_consumption_nonneg true true true true ("2BHK") 4 30 8
    (by simp [validHomeTypes]) (by norm_num) (by norm_num) (by norm_num)
    (by norm_num) (by norm_num) (by norm_num)

/-- C3: over valid inputs, the estimator is monotone in family size and in
usage duration, all other fields held fixed, whenever the pre-duration base
(the base after the solar step) is positive. -/
theorem calculate_consumption_monotone :
    (∀ (ac fr wm s : Bool) (ht : String) (f f' t d : ℚ),
      ht ∈ validHomeTypes →
      1 ≤ f → f ≤ 10 → 1 ≤ f' → f' ≤ 10 →
      15 ≤ t → t ≤ 45 → 1 ≤ d → d ≤ 24 →
      0 < solarAdjust s (baseAfterAppliances ac fr wm ht f t) →
      f ≤ f' →
      calculate_consumption ac fr wm s ht f t d
        ≤ calculate_consumption ac fr wm s ht f' t d)
    ∧ (∀ (ac fr wm s : Bool) (ht : String) (f t d d' : ℚ),
      ht ∈ validHomeTypes →
      1 ≤ f → f ≤ 10 →
      15 ≤ t → t ≤ 45 → 1 ≤ d → d ≤ 24 → 1 ≤ d' → d' ≤ 24 →
      0 < solarAdjust s (baseAfterAppliances ac fr wm ht f t) →
      d ≤ d' →
      calculate_consumption ac fr wm s ht f t d
        ≤ calculate_consumption ac fr wm s ht f t d') := by
  constructor
  · intro ac fr wm s ht f f' t d _ _ _ _ _ _ _ hd1 _ _ hff
    unfold calculate_consumption
    apply max_le_max (le_refl 0)
    apply round2_mono
    have hb : baseAfterAppliances ac fr wm ht f t
        ≤ baseAfterAppliances ac fr wm ht f' t := by
      unfold baseAfterAppliances
      have : f * 0.5 ≤ f' * 0.5 := by linarith
      linarith
    exact mul_le_mul_of_nonneg_right (solarAdjust_mono s hb) (by linarith)
  · intro ac fr wm s ht f t d d' _ _ _ _ _ _ _ _ _ hpos hdd
    unfold calculate_consumption
    apply max_le_max (le_refl 0)
    apply round2_mono
    exact mul_le_mul_of_nonneg_left (by linarith) (le_of_lt hpos)

/-- C3 witness. -/
theorem calculate_consumption_monotone_witness :
    calculate_consumption true true false false ("2BHK") 4 30 8
        ≤ calculate_consumption true true false false ("2BHK") 5 30 8
    ∧ calculate_consumption true true false false ("2BHK") 4 30 8
        ≤ calculate_consumption true true false false ("2BHK") 4 30 9 :=
  ⟨calculate_consumption_monotone.1 true true false false ("2BHK") 4 5 30 8
      (by simp [validHomeTypes]) (by norm_num) (by norm_num) (by norm_num)
      (by norm_num) (by norm_num) (by norm_num) (by norm_num) (by norm_num)
      (by
        have h2 : home_multipliers ("2BHK") = 1.5 := rfl
        norm_num [solarAdjust, baseAfterAppliances, ac_consumption,
          fridge_consumption, h2, max_def, min_def])
      (by norm_num),
    calculate_consumption_monotone.2 true true false false ("2BHK") 4 30 8 9
      (by simp [validHomeTypes]) (by norm_num) (by norm_num) (by norm_num)
      (by norm_num) (by norm_num) (by norm_num) (by norm_num) (by norm_num)
      (by
        have h2 : home_multipliers ("2BHK") = 1.5 := rfl
        norm_num [solarAdjust, baseAfterAppliances, ac_consumption,
          fridge_consumption, h2, max_def, min_def])
      (by norm_num)⟩

/-- C4: over valid inputs, enabling the solar panel flag never increases
the estimator result relative to the same inputs with it disabled. -/
theorem calculate_consumption_solar_le (ac fr wm : Bool) (ht : String)
    (f t d : ℚ) (hht : ht ∈ validHomeTypes)
    (hf1 : 1 ≤ f) (hf2 : f ≤ 10) (ht1 : 15 ≤ t) (ht2 : t ≤ 45)
    (hd1 : 1 ≤ d) (hd2 : d ≤ 24) :
    calculate_consumption ac fr wm true ht f t d
      ≤ calculate_consumption ac fr wm false ht f t d := by
  unfold calculate_consumption
  apply max_le_max (le_refl 0)
  apply round2_mono
  have hb : 0 ≤ baseAfterAppliances ac fr wm ht f t :=
    le_of_lt (baseAfterAppliances_pos ac fr wm ht hf1)
  exact mul_le_mul_of_nonneg_right (solarAdjust_le_self true hb) (by linarith)

/-- C4 witness. -/
theorem calculate_consumption_solar_le_witness :
    calculate_consumption true true false true ("2BHK") 4 30 8
      ≤ calculate_consumption true true false false ("2BHK") 4 30 8 :=
  calculate_consumption_solar_le true true false ("2BHK") 4 30 8
    (by simp [validHomeTypes]) (by norm_num) (by norm_num) (by norm_num)
    (by norm_num) (by norm_num) (by norm_num)

/-- C5: `get_energy_tips` is a pure three-way threshold: consumption
strictly above 15 yields the high-consumption warning, consumption in
(10, 15] yields the moderate-consumption caution, consumption at most 10
yields the positive-reinforcement message; in particular at 10, 10.01, 15
and 15.01 it returns the positive, moderate, moderate and high message
respectively. -/
theorem get_energy_tips_thresholds :
    (∀ c : ℚ, 15 < c → get_energy_tips c =
      "🚨 High consumption! Consider using solar panels, LED bulbs, and energy-efficient appliances.")
    ∧ (∀ c : ℚ, 10 < c → c ≤ 15 → get_energy_tips c =
      "⚠ Moderate consumption. Try to use AC wisely and unplug unused devices.")
    ∧ (∀ c : ℚ, c ≤ 10 → get_energy_tips c =
      "✅ Great job! You\x27re maintaining low energy consumption.")
    ∧ get_energy_tips 10 =
      "✅ Great job! You\x27re maintaining low energy consumption."
    ∧ get_energy_tips 10.01 =
      "⚠ Moderate consumption. Try to use AC wisely and unplug unused devices."
    ∧ get_energy_tips 15 =
      "⚠ Moderate consumption. Try to use AC wisely and unplug unused devices."
    ∧ get_energy_tips 15.01 =
      "🚨 High consumption! Consider using solar panels, LED bulbs, and energy-efficient appliances." := by
  refine ⟨?_, ?_, ?_, ?_, ?_, ?_, ?_⟩
  · intro c hc
    unfold get_energy_tips
    rw [if_pos hc]
  · intro c h1 h2
    unfold get_energy_tips
    rw [if_neg (not_lt.mpr h2), if_pos h1]
  · intro c h1
    unfold get_energy_tips
    rw [if_neg (not_lt.mpr (by linarith)), if_neg (not_lt.mpr h1)]
  · norm_num [get_energy_tips]
  · norm_num [get_energy_tips]
  · norm_num [get_energy_tips]
  · norm_num [get_energy_tips]

/-- C5 witness. -/
theorem get_energy_tips_thresholds_witness :
    get_energy_tips 16 =
      "🚨 High consumption! Consider using solar panels, LED bulbs, and energy-efficient appliances."
    ∧ get_energy_tips 12 =
      "⚠ Moderate consumption. Try to use AC wisely and unplug unused devices."
    ∧ get_energy_tips 9 =
      "✅ Great job! You\x27re maintaining low energy consumption." :=
  ⟨get_energy_tips_thresholds.1 16 (by norm_num),
    get_energy_tips_thresholds.2.1 12 (by norm_num) (by norm_num),
    get_energy_tips_thresholds.2.2.1 9 (by norm_num)⟩

lemma roundHE_eval (q : ℚ) (n : ℤ) (h1 : (n : ℚ) - 1/2 < q)
    (h2 : q < (n : ℚ) + 1/2) : roundHE q = n := by
  have hr : round q = n := by
    rw [round_eq]
    refine Int.floor_eq_iff.mpr ⟨by linarith, by linarith⟩
  unfold roundHE
  split
  case isTrue htie =>
    exfalso
    have hl := Int.floor_le q
    have hu := Int.lt_floor_add_one q
    have hq : q = (⌊q⌋ : ℚ) + 1/2 := by linarith
    have hb1 : (n : ℚ) - 1 < (⌊q⌋ : ℚ) := by linarith
    have hb2 : ((⌊q⌋ : ℚ)) < n := by linarith
    have hc1 : n - 1 < ⌊q⌋ := by exact_mod_cast hb1
    have hc2 : ⌊q⌋ < n := by exact_mod_cast hb2
    omega
  case isFalse _ => exact hr

lemma round2_eval (q : ℚ) (n : ℤ) (h1 : (n : ℚ) - 1/2 < q * 100)
    (h2 : q * 100 < (n : ℚ) + 1/2) : round2 q = (n : ℚ) / 100 := by
  unfold round2
  rw [roundHE_eval (q * 100) n h1 h2]

/-! ### Cost projection (src/one.py lines 342-345) -/

/-- Computation `daily_cost = df[Total_Consumption] * electricity_rate`
(src/one.py line 343), over the stored consumption column. -/
def dailyCost (totals : List ℚ) (rate : ℚ) : List ℚ :=
  totals.map (fun t => t * rate)

/-- Computation `monthly_cost = daily_cost.sum() * (30 / len(df))` (src/one.py
line 344). -/
def monthlyCost (totals : List ℚ) (rate : ℚ) : ℚ :=
  (dailyCost totals rate).sum * (30 / (totals.length : ℚ))

/-- Computation `yearly_cost = monthly_cost * 12` (src/one.py line 345). -/
def yearlyCost (totals : List ℚ) (rate : ℚ) : ℚ :=
  monthlyCost totals rate * 12

/-- C6: for every non-empty consumption column and every rate, the cost
projection computes elementwise daily costs, monthly cost as the daily sum
scaled by 30/count, and yearly cost as twelve monthly costs; on the single
record 10 at rate 6 it gives 60, 1800 and 21600. -/
theorem costProjection_formulas (totals : List ℚ) (rate : ℚ)
    (h : totals ≠ []) :
    (∀ (i : ℕ) (hi : i < totals.length)
      (hi2 : i < (dailyCost totals rate).length),
      (dailyCost totals rate)[i] = totals[i] * rate)
    ∧ monthlyCost totals rate
        = (dailyCost totals rate).sum * (30 / (totals.length : ℚ))
    ∧ yearlyCost totals rate = monthlyCost totals rate * 12
    ∧ dailyCost [10] 6 = [60]
    ∧ monthlyCost [10] 6 = 1800
    ∧ yearlyCost [10] 6 = 21600 := by
  refine ⟨?_, rfl, rfl, ?_, ?_, ?_⟩
  · intro i hi hi2
    simp [dailyCost]
  · norm_num [dailyCost]
  · simp [monthlyCost, dailyCost]
    norm_num
  · simp [yearlyCost, monthlyCost, dailyCost]
    norm_num

/-- C6 witness. -/
theorem costProjection_formulas_witness :
    monthlyCost [10] 6 = 1800 ∧ yearlyCost [10] 6 = 21600 :=
  ⟨(costProjection_formulas [10] 6 (by simp)).2.2.2.2.1,
    (costProjection_formulas [10] 6 (by simp)).2.2.2.2.2⟩

/-! ### Daily records and the weekday averages analytics -/

/-- One persisted row of the flat file, fields in the column order of the
header written by `initialize_csv` (src/one.py lines 65-69) and of the
dict saved in `main` (src/one.py lines 253-265). -/
structure DailyRecord where
  date : String
  day : String
  ac_usage : Bool
  fridge_usage : Bool
  washing_machine_usage : Bool
  solar_usage : Bool
  total_consumption : ℚ
  home_type : String
  family_size : ℕ
  outside_temperature : ℕ
  usage_duration_hours : ℕ
deriving DecidableEq

/-- Numeric value of a decimal digit character. -/
def charDigit (c : Char) : ℕ := c.toNat - 48

/-- Parse a `YYYY-MM-DD` date string into year, month and day, as
`pd.to_datetime` does on the stored date column (src/one.py line 312). -/
def parseDate (s : String) : Option (ℕ × ℕ × ℕ) :=
  match s.toList with
  | [y1, y2, y3, y4, s1, m1, m2, s2, d1, d2] =>
    if s1 = '-' ∧ s2 = '-' then
      some (charDigit y1 * 1000 + charDigit y2 * 100 + charDigit y3 * 10 + charDigit y4,
        charDigit m1 * 10 + charDigit m2,
        charDigit d1 * 10 + charDigit d2)
    else none
  | _ => none

/-- Month offsets of the Sakamoto day-of-week formula. -/
def monthOffset (m : ℕ) : ℕ := [0, 3, 2, 5, 0, 3, 5, 1, 4, 6, 2, 4].getD (m - 1) 0

/-- Day of the week of a Gregorian date, 0 = Sunday, by the Sakamoto
formula. -/
def sakamotoDayOfWeek (y m d : ℕ) : ℕ :=
  let y2 := if m < 3 then y - 1 else y
  (y2 + y2 / 4 + y2 / 400 + monthOffset m + d - y2 / 100) % 7

/-- Weekday names as produced by `dt.day_name()`. -/
def weekdayNames : List String :=
  ["Sunday", "Monday", "Tuesday", "Wednesday", "Thursday", "Friday", "Saturday"]

/-- The weekday name derived from a stored `YYYY-MM-DD` date string:
the model of `pd.to_datetime(df[Date]).dt.day_name()` (src/one.py
lines 312-313). -/
def dayName (s : String) : String :=
  match parseDate s with
  | some (y, m, d) => weekdayNames.getD (sakamotoDayOfWeek y m d) ""
  | none => ""

/-- The weekday-averages analytics
`df.groupby(df[Date].dt.day_name())[Total_Consumption].mean().round(2)`
(src/one.py line 313): for each weekday name occurring among the records,
the mean stored consumption of the records falling on that weekday,
rounded to two decimals. -/
def weekdayAverages (rs : List DailyRecord) : List (String × ℚ) :=
  ((rs.map (fun r => dayName r.date)).dedup).map (fun k =>
    let g := rs.filter (fun r => decide (dayName r.date = k))
    (k, round2 ((g.map (fun r => r.total_consumption)).sum / (g.length : ℚ))))


/-- C7 (amended): the weekday-averages analytics applied to the empty
sequence of records returns the empty mapping rather than failing; every
weekday name derived from the date of some record appears in the returned
mapping, paired with the mean stored consumption of the records falling on
that weekday rounded to two decimal places (ties to even); and conversely
every entry of the returned mapping is such a pair for a non-empty group
of records. -/
theorem weekdayAverages_empty_and_groups :
    weekdayAverages [] = []
    ∧ (∀ (rs : List DailyRecord) (r : DailyRecord), r ∈ rs →
      (dayName r.date,
        round2
          (((rs.filter (fun x => decide (dayName x.date = dayName r.date))).map
              (fun x => x.total_consumption)).sum
            / ((rs.filter
                (fun x => decide (dayName x.date = dayName r.date))).length : ℚ)))
        ∈ weekdayAverages rs)
    ∧ (∀ (rs : List DailyRecord) (k : String) (v : ℚ),
      (k, v) ∈ weekdayAverages rs →
      rs.filter (fun x => decide (dayName x.date = k)) ≠ []
      ∧ v = round2
          (((rs.filter (fun x => decide (dayName x.date = k))).map
              (fun x => x.total_consumption)).sum
            / ((rs.filter (fun x => decide (dayName x.date = k))).length : ℚ))) := by
  refine ⟨rfl, ?_, ?_⟩
  · intro rs r hr
    unfold weekdayAverages
    exact List.mem_map.mpr ⟨dayName r.date,
      List.mem_dedup.mpr (List.mem_map_of_mem _ hr), rfl⟩
  · intro rs k v hmem
    unfold weekdayAverages at hmem
    rcases List.mem_map.mp hmem with ⟨k2, hk2, heq⟩
    cases heq
    constructor
    · rcases List.mem_map.mp (List.mem_dedup.mp hk2) with ⟨r, hr, hdr⟩
      exact List.ne_nil_of_mem (List.mem_filter.mpr ⟨hr, by simp [hdr]⟩)
    · rfl

/-- A record dated 2024-01-01 (a Monday) with a given stored consumption. -/
def mondayRecord (q : ℚ) : DailyRecord :=
  ⟨"2024-01-01", "Monday", false, false, false, false, q, "2BHK", 4, 30, 8⟩

/-- C7 counterexample: on three records all falling on Monday with stored
consumptions 0.01, 0.01 and 0.02, the code returns 0.01 for Monday, while
the exact mean is 1/75 = 0.0133...; the analytics therefore does not
return the mean itself, only the mean rounded to two decimals. -/
theorem weekdayAverages_counterexample :
    weekdayAverages [mondayRecord (1/100), mondayRecord (1/100), mondayRecord (2/100)]
        = [("Monday", 1/100)]
    ∧ ((([mondayRecord (1/100), mondayRecord (1/100), mondayRecord (2/100)].map
          (fun r => r.total_consumption)).sum)
        / (([mondayRecord (1/100), mondayRecord (1/100), mondayRecord (2/100)].length : ℚ)))
        = 1/75
    ∧ ((1 : ℚ)/100) ≠ 1/75 := by
  have hdn : dayName ("2024-01-01") = "Monday" := rfl
  have hr2 : round2 (1/75) = 1/100 := by
    have he := round2_eval (1/75) 1 (by norm_num) (by norm_num)
    rw [he]
    norm_num
  refine ⟨?_, by norm_num [mondayRecord], by norm_num⟩
  unfold weekdayAverages
  simp only [List.map, mondayRecord, hdn]
  norm_num [List.filter, hdn, hr2]


/-- C7 witness. -/
theorem weekdayAverages_empty_and_groups_witness :
    (("Monday",
        round2
          ((([mondayRecord 1].filter
                (fun x => decide (dayName x.date = "Monday"))).map
              (fun x => x.total_consumption)).sum
            / (([mondayRecord 1].filter
                (fun x => decide (dayName x.date = "Monday"))).length : ℚ)))
      ∈ weekdayAverages [mondayRecord 1])
    ∧ ([mondayRecord 1].filter (fun x => decide (dayName x.date = "Monday")) ≠ []
      ∧ (1 : ℚ) = round2
          ((([mondayRecord 1].filter
                (fun x => decide (dayName x.date = "Monday"))).map
              (fun x => x.total_consumption)).sum
            / (([mondayRecord 1].filter
                (fun x => decide (dayName x.date = "Monday"))).length : ℚ))) :=
  ⟨weekdayAverages_empty_and_groups.2.1 [mondayRecord 1] (mondayRecord 1)
      (List.mem_singleton.mpr rfl),
    weekdayAverages_empty_and_groups.2.2 [mondayRecord 1] ("Monday") 1 (by
      have hdn : dayName ("2024-01-01") = "Monday" := rfl
      have h1 : weekdayAverages [mondayRecord 1] = [("Monday", 1)] := by
        unfold weekdayAverages
        simp only [List.map, mondayRecord, hdn]
        have he := round2_eval 1 100 (by norm_num) (by norm_num)
        norm_num [List.filter, hdn, he]
      rw [h1]
      simp)⟩


/-! ### The flat-file record store (src/one.py lines 59-85) -/

/-- One data row of the CSV file, as the list of its cell texts. -/
abbrev Row := List String

/-- The persisted CSV file: `none` when the file does not exist, otherwise
the data rows in file order (the fixed header row is implicit). -/
abbrev FileState := Option (List Row)

/-- How pandas `to_csv` writes a Python boolean cell. -/
def printBool (b : Bool) : String := if b then "True" else "False"

/-- How pandas `read_csv` reads a boolean cell back. -/
def parseBool (s : String) : Bool := decide (s = "True")

/-- The character of a decimal digit. -/
def digitChar (d : ℕ) : Char :=
  if d = 0 then '0'
  else if d = 1 then '1'
  else if d = 2 then '2'
  else if d = 3 then '3'
  else if d = 4 then '4'
  else if d = 5 then '5'
  else if d = 6 then '6'
  else if d = 7 then '7'
  else if d = 8 then '8'
  else '9'

/-- Decimal digits of a natural number, most significant first. -/
def natDigitsBE (n : ℕ) : List Char :=
  if h : n < 10 then [digitChar n]
  else natDigitsBE (n / 10) ++ [digitChar (n % 10)]
decreasing_by exact Nat.div_lt_self (by omega) (by norm_num)

/-- Plain decimal text of a natural number cell. -/
def printNat (n : ℕ) : String := String.mk (natDigitsBE n)

/-- Base-10 value accumulated over a list of digit characters. -/
def parseNatL (cs : List Char) : ℕ :=
  cs.foldl (fun a c => a * 10 + charDigit c) 0

/-- Parse a natural number cell. -/
def parseNat (s : String) : ℕ := parseNatL s.toList

/-- Decimal text of a two-decimal consumption value, as stored in the
`Total_Consumption` column. -/
def printQ2 (q : ℚ) : String :=
  printNat ((⌊q * 100⌋).toNat / 100) ++ "." ++
    String.mk [digitChar ((⌊q * 100⌋).toNat % 100 / 10),
      digitChar ((⌊q * 100⌋).toNat % 100 % 10)]

/-- Split a cell text at the first decimal point. -/
def splitIntPart : List Char → List Char × List Char
  | [] => ([], [])
  | c :: cs =>
    if c = '.' then ([], cs)
    else
      let p := splitIntPart cs
      (c :: p.1, p.2)

/-- Parse a decimal number cell back into a rational. -/
def parseQ2 (s : String) : ℚ :=
  (parseNatL (splitIntPart s.toList).1 : ℚ)
    + (parseNatL (splitIntPart s.toList).2 : ℚ)
      / 10 ^ (splitIntPart s.toList).2.length

/-- Serialize a record into a CSV data row, cells in the column order of
the header (src/one.py lines 65-69). -/
def serializeRecord (r : DailyRecord) : Row :=
  [r.date, r.day, printBool r.ac_usage, printBool r.fridge_usage,
    printBool r.washing_machine_usage, printBool r.solar_usage,
    printQ2 r.total_consumption, r.home_type, printNat r.family_size,
    printNat r.outside_temperature, printNat r.usage_duration_hours]

/-- Parse one CSV data row back into a record, as `read_csv` types the
columns. -/
def parseRecord (row : Row) : Option DailyRecord :=
  match row with
  | [date, day, ac, fr, wm, so, tot, ht, fs, temp, dur] =>
    some ⟨date, day, parseBool ac, parseBool fr, parseBool wm, parseBool so,
      parseQ2 tot, ht, parseNat fs, parseNat temp, parseNat dur⟩
  | _ => none

/-- The function `initialize_csv` of src/one.py lines 62-70: create the table (header
only, no data rows) when no file exists, otherwise leave the file alone. -/
def initialize_csv (s : FileState) : FileState :=
  match s with
  | none => some []
  | some rows => some rows

/-- The function `load_data` of src/one.py lines 81-85: the full table in file order,
or empty when no file exists. -/
def load_data (s : FileState) : List Row :=
  match s with
  | some rows => rows
  | none => []

/-- The function `save_to_csv` of src/one.py lines 73-78: read the whole table, append
the one new row, write it back. -/
def save_to_csv (r : DailyRecord) (rows : List Row) : List Row :=
  rows ++ [serializeRecord r]

/-- The append operation of the Record Store contract: the save path of
`main` (src/one.py lines 190 and 252-266) runs `initialize_csv` and then
`save_to_csv`. -/
def appendRecord (r : DailyRecord) (s : FileState) : FileState :=
  some (save_to_csv r (load_data (initialize_csv s)))

/-- The stored table parsed back into records. -/
def loadRecords (s : FileState) : List DailyRecord :=
  (load_data s).filterMap parseRecord

/-! ### Round-trip lemmas for the cell formats -/

lemma charDigit_digitChar {d : ℕ} (h : d < 10) : charDigit (digitChar d) = d := by
  interval_cases d <;> rfl

lemma digitChar_ne_dot (d : ℕ) : digitChar d ≠ '.' := by
  unfold digitChar
  split_ifs <;> decide

lemma parseNatL_natDigitsBE (n : ℕ) : ∀ acc : ℕ,
    List.foldl (fun a c => a * 10 + charDigit c) acc (natDigitsBE n)
      = acc * 10 ^ (natDigitsBE n).length + n := by
  induction n using Nat.strong_induction_on with
  | _ n ih =>
    intro acc
    rw [natDigitsBE]
    split
    case isTrue h =>
      simp [charDigit_digitChar h]
    case isFalse h =>
      rw [List.foldl_append,
        ih (n / 10) (Nat.div_lt_self (by omega) (by norm_num)) acc]
      have hm : n % 10 < 10 := Nat.mod_lt n (by norm_num)
      simp only [List.foldl, charDigit_digitChar hm, List.length_append,
        List.length_cons, List.length_nil]
      have hdm : n / 10 * 10 + n % 10 = n := by omega
      rw [pow_succ]
      ring_nf
      omega

lemma natDigitsBE_ne_dot (n : ℕ) : ∀ c ∈ natDigitsBE n, c ≠ '.' := by
  induction n using Nat.strong_induction_on with
  | _ n ih =>
    intro c hc
    rw [natDigitsBE] at hc
    split at hc
    · rcases List.mem_singleton.mp hc with rfl
      exact digitChar_ne_dot _
    · rcases List.mem_append.mp hc with h | h
      · exact ih (n / 10) (Nat.div_lt_self (by omega) (by norm_num)) c h
      · rcases List.mem_singleton.mp h with rfl
        exact digitChar_ne_dot _

lemma splitIntPart_append (L M : List Char) (hL : ∀ c ∈ L, c ≠ '.') :
    splitIntPart (L ++ '.' :: M) = (L, M) := by
  induction L with
  | nil => simp [splitIntPart]
  | cons c cs ihc =>
    have hc : c ≠ '.' := hL c (by simp)
    have ih2 := ihc (fun x hx => hL x (by simp [hx]))
    rw [List.cons_append]
    unfold splitIntPart
    rw [if_neg hc, ih2]

lemma parseNat_printNat (n : ℕ) : parseNat (printNat n) = n := by
  unfold parseNat printNat parseNatL
  have htl : (String.mk (natDigitsBE n)).toList = natDigitsBE n := rfl
  rw [htl, parseNatL_natDigitsBE n 0]
  simp

lemma parseQ2_printQ2 (n : ℕ) : parseQ2 (printQ2 ((n : ℚ) / 100)) = (n : ℚ) / 100 := by
  unfold printQ2
  have h100 : ((n : ℚ) / 100) * 100 = (n : ℚ) := by
    field_simp
  rw [h100, Int.floor_natCast, Int.toNat_natCast]
  unfold parseQ2
  have htl : ((printNat (n / 100) ++ "." ++
      String.mk [digitChar (n % 100 / 10), digitChar (n % 100 % 10)]).toList)
      = natDigitsBE (n / 100) ++ '.' :: [digitChar (n % 100 / 10), digitChar (n % 100 % 10)] := by
    show ((printNat (n / 100) ++ "." ++
      String.mk [digitChar (n % 100 / 10), digitChar (n % 100 % 10)]).data) = _
    rw [String.data_append, String.data_append, List.append_assoc]
    rfl
  rw [htl, splitIntPart_append _ _ (natDigitsBE_ne_dot (n / 100))]
  have h1 : parseNatL (natDigitsBE (n / 100)) = n / 100 := by
    have := parseNat_printNat (n / 100)
    unfold parseNat printNat at this
    exact this
  have h2 : parseNatL [digitChar (n % 100 / 10), digitChar (n % 100 % 10)] = n % 100 := by
    unfold parseNatL
    simp only [List.foldl, charDigit_digitChar (by omega : n % 100 / 10 < 10),
      charDigit_digitChar (by omega : n % 100 % 10 < 10)]
    omega
  rw [h1, h2]
  have hn : (100 * (n / 100) + n % 100 : ℕ) = n := Nat.div_add_mod n 100
  have hq : ((n / 100 : ℕ) : ℚ) * 100 + ((n % 100 : ℕ) : ℚ) = (n : ℚ) := by
    exact_mod_cast congrArg (fun k : ℕ => (k : ℚ)) (by omega : n / 100 * 100 + n % 100 = n)
  push_cast
  field_simp
  linarith [hq]

lemma parseBool_printBool (b : Bool) : parseBool (printBool b) = b := by
  cases b <;> rfl

lemma parseRecord_serializeRecord (r : DailyRecord)
    (h : ∃ n : ℕ, r.total_consumption = (n : ℚ) / 100) :
    parseRecord (serializeRecord r) = some r := by
  obtain ⟨n, hn⟩ := h
  unfold serializeRecord parseRecord
  simp only [parseBool_printBool, parseNat_printNat, hn, parseQ2_printQ2]
  rw [← hn]

/-! ### Record store claim theorems -/

/-- C8: `load_data` returns the empty table when no file exists, and the
full table in file (insertion) order when it does. -/
theorem load_data_spec :
    load_data none = [] ∧ ∀ rows : List Row, load_data (some rows) = rows :=
  ⟨rfl, fun _ => rfl⟩

/-- C9: for every record whose stored consumption is a two-decimal value
(as every estimator output is) and every prior store state, appending it
and loading yields a non-empty sequence whose last element equals the
record field-for-field after serialization and deserialization. -/
theorem append_loadAll_last (r : DailyRecord) (s : FileState)
    (h : ∃ n : ℕ, r.total_consumption = (n : ℚ) / 100) :
    loadRecords (appendRecord r s) ≠ []
    ∧ (loadRecords (appendRecord r s)).getLast? = some r := by
  have hp := parseRecord_serializeRecord r h
  have hload : loadRecords (appendRecord r s) = loadRecords s ++ [r] := by
    unfold loadRecords appendRecord save_to_csv initialize_csv load_data
    cases s <;> simp [List.filterMap_append, hp]
  rw [hload]
  constructor
  · simp
  · simp [List.getLast?_concat]

/-- C9 witness. -/
theorem append_loadAll_last_witness :
    loadRecords (appendRecord (mondayRecord 1) none) ≠ []
    ∧ (loadRecords (appendRecord (mondayRecord 1) none)).getLast?
        = some (mondayRecord 1) :=
  append_loadAll_last (mondayRecord 1) none ⟨100, by norm_num [mondayRecord]⟩

/-- C10: appending a record leaves all previously stored rows unchanged
and in order, adding exactly the one new serialized row at the end, so the
row count and the parsed record count both increase by exactly one. -/
theorem append_frame (r : DailyRecord) (s : FileState) :
    load_data (appendRecord r s) = load_data s ++ [serializeRecord r]
    ∧ (load_data (appendRecord r s)).length = (load_data s).length + 1
    ∧ (loadRecords (appendRecord r s)).length = (loadRecords s).length + 1 := by
  refine ⟨?_, ?_, ?_⟩ <;>
    cases s <;>
      simp [load_data, appendRecord, save_to_csv, initialize_csv, loadRecords,
        List.filterMap_append, serializeRecord, parseRecord]

end EnergyTracker
